import Mathlib

/-!
Shallow embedding of the OZMirror configuration service
(`services/config/app`): the MySQL-backed document store
(`database.py`), the pydantic data model (`models.py`), the API-key
guard (`dependencies.py`) and the route handlers
(`routes/layout.py`, `routes/modules.py`, `routes/settings.py`).

Conventions of the embedding:
* MySQL JSON column values are modelled by the inductive `Json`;
  Python dicts are insertion-ordered association lists
  `List (String × α)` with the dict operations below.
* A Python exception escaping a handler (SQLAlchemy `.one()` failure,
  pydantic `ValidationError`, `KeyError`) is the outer `none` of an
  `Option` result: the session is closed without commit, so the store
  is unchanged.
* A raised `HTTPException` or a successful response is an `ApiOut`.
* `secrets.compare_digest` is semantically string equality.
* SQLAlchemy `Float` carries no arithmetic here, so `font_scale` is
  modelled by `Rat`.
-/

set_option autoImplicit false

namespace OZMirror

/-- A JSON value, as stored in the MySQL `JSON` columns. -/
inductive Json where
  | null
  | bool (b : Bool)
  | num (n : Int)
  | str (s : String)
  | arr (elems : List Json)
  | obj (fields : List (String × Json))

/-- A JSON object body / Python `Dict[str, Any]`. -/
abbrev JDict := List (String × Json)

section DictOps

variable {α : Type}

/-- Python `d.get(k)` / `d[k]` lookup: first entry with the key. -/
def dlookup : List (String × α) → String → Option α
  | [], _ => none
  | (k, v) :: rest, key => if k = key then some v else dlookup rest key

/-- Python `list(d.keys())`. -/
def dkeys (d : List (String × α)) : List String :=
  d.map Prod.fst

/-- Python `d[k] = v`: replace the value in place when the key exists
(keeping dict order), otherwise append the new entry at the end. -/
def dset (d : List (String × α)) (key : String) (v : α) : List (String × α) :=
  if (dlookup d key).isSome then
    d.map fun p => if p.1 = key then (key, v) else p
  else
    d ++ [(key, v)]

/-- Python `del d[k]` after the key has been checked present. -/
def ddel (d : List (String × α)) (key : String) : List (String × α) :=
  d.filter fun p => p.1 ≠ key

end DictOps

/-! ### models.py -/

/-- The `GridItem` (models.py): one entry of a react-grid-layout array. -/
structure GridItem where
  i : String
  x : Int
  y : Int
  w : Int
  h : Int
  minW : Option Int := none
  minH : Option Int := none
  maxW : Option Int := none
  maxH : Option Int := none
deriving DecidableEq, Repr

/-- The `ModuleInstanceConfig` (models.py). -/
structure ModuleInstanceConfig where
  moduleId : String
  config : JDict := []

/-- The `LayoutProfile` (models.py). -/
structure LayoutProfile where
  grid : List GridItem
  moduleConfigs : List (String × ModuleInstanceConfig)

/-- The `LayoutData` (models.py): the root layout document. -/
structure LayoutData where
  activeProfile : String := "default"
  layouts : List (String × LayoutProfile)

/-- The `GridConstraints` (models.py). -/
structure GridConstraints where
  minW : Option Int := none
  minH : Option Int := none
  maxW : Option Int := none
  maxH : Option Int := none
  defaultW : Option Int := none
  defaultH : Option Int := none
deriving DecidableEq, Repr

/-- The `ModuleManifest` (models.py). -/
structure ModuleManifest where
  id : String
  name : String
  description : String := ""
  version : String
  author : String := ""
  icon : Option String := none
  defaultConfig : JDict := []
  configSchema : Option JDict := none
  gridConstraints : Option GridConstraints := none

/-- The `RegisteredModule` (models.py). -/
structure RegisteredModule where
  id : String
  name : String
  serviceUrl : String
  manifest : ModuleManifest
  status : String := "online"

/-- The `GlobalSettings` (models.py). -/
structure GlobalSettings where
  theme : String := "dark"
  kiosk : Bool := false
  cursorTimeout : Int := 3000
  fontScale : Rat := 1
  autoStart : Bool := false
deriving DecidableEq, Repr

/-- The `Theme` (models.py). -/
structure Theme where
  id : String
  name : String
  «variables» : List (String × String)
deriving DecidableEq, Repr

/-! ### Pydantic validation (JSON → model) and `model_dump` (model → JSON)

`get_layout` and `get_module` feed raw JSON column values to the
pydantic constructors (`LayoutProfile(**profile)`,
`RegisteredModule(manifest=row.manifest, ...)`); `save_layout`,
`create_profile` and `register_module` call `model_dump`.  All the
models above use `extra="forbid"`, so an unknown key is a
`ValidationError` (`none`), a missing key without a default likewise. -/

/-- Required `str` field. -/
def parseStr : Option Json → Option String
  | some (.str s) => some s
  | _ => none

/-- The `str` field with a default for a missing key. -/
def parseStrDefault (dflt : String) : Option Json → Option String
  | none => some dflt
  | some (.str s) => some s
  | some _ => none

/-- Required `int` field. -/
def parseInt : Option Json → Option Int
  | some (.num n) => some n
  | _ => none

/-- The `Optional[int] = None` field. -/
def parseOptInt : Option Json → Option (Option Int)
  | none => some none
  | some .null => some none
  | some (.num n) => some (some n)
  | some _ => none

/-- The `Optional[str] = None` field. -/
def parseOptStr : Option Json → Option (Option String)
  | none => some none
  | some .null => some none
  | some (.str s) => some (some s)
  | some _ => none

/-- The `Dict[str, Any] = Field(default_factory=dict)` field. -/
def parseDictDefault : Option Json → Option JDict
  | none => some []
  | some (.obj fs) => some fs
  | some _ => none

/-- The `Optional[Dict[str, Any]] = None` field. -/
def parseOptDict : Option Json → Option (Option JDict)
  | none => some none
  | some .null => some none
  | some (.obj fs) => some (some fs)
  | some _ => none

/-- The `extra="forbid"`: every input key must be a declared field. -/
def keysAllowed (fields : JDict) (allowed : List String) : Bool :=
  fields.all fun p => allowed.contains p.1

def gridItemKeys : List String :=
  ["i", "x", "y", "w", "h", "minW", "minH", "maxW", "maxH"]

def parseGridItem : Json → Option GridItem
  | .obj fs =>
    if keysAllowed fs gridItemKeys then do
      let i ← parseStr (dlookup fs "i")
      let x ← parseInt (dlookup fs "x")
      let y ← parseInt (dlookup fs "y")
      let w ← parseInt (dlookup fs "w")
      let h ← parseInt (dlookup fs "h")
      let minW ← parseOptInt (dlookup fs "minW")
      let minH ← parseOptInt (dlookup fs "minH")
      let maxW ← parseOptInt (dlookup fs "maxW")
      let maxH ← parseOptInt (dlookup fs "maxH")
      pure { i, x, y, w, h, minW, minH, maxW, maxH }
    else none
  | _ => none

def optIntJson : Option Int → Json
  | none => .null
  | some n => .num n

def optStrJson : Option String → Json
  | none => .null
  | some s => .str s

def optDictJson : Option JDict → Json
  | none => .null
  | some fs => .obj fs

/-- The `GridItem.model_dump()`: every field is emitted, `None` as `null`. -/
def dumpGridItem (g : GridItem) : Json :=
  .obj [("i", .str g.i), ("x", .num g.x), ("y", .num g.y),
        ("w", .num g.w), ("h", .num g.h),
        ("minW", optIntJson g.minW), ("minH", optIntJson g.minH),
        ("maxW", optIntJson g.maxW), ("maxH", optIntJson g.maxH)]

def micKeys : List String := ["moduleId", "config"]

def parseModuleInstanceConfig : Json → Option ModuleInstanceConfig
  | .obj fs =>
    if keysAllowed fs micKeys then do
      let moduleId ← parseStr (dlookup fs "moduleId")
      let config ← parseDictDefault (dlookup fs "config")
      pure { moduleId, config }
    else none
  | _ => none

def dumpModuleInstanceConfig (c : ModuleInstanceConfig) : Json :=
  .obj [("moduleId", .str c.moduleId), ("config", .obj c.config)]

def profileKeys : List String := ["grid", "moduleConfigs"]

/-- Element-wise list validation, as pydantic does for `List[...]`. -/
def parseList {α : Type} (g : Json → Option α) : List Json → Option (List α)
  | [] => some []
  | j :: rest => do
    let a ← g j
    let as ← parseList g rest
    pure (a :: as)

/-- Value-wise dict validation, as pydantic does for `Dict[str, ...]`. -/
def parsePairs {α : Type} (g : Json → Option α) : JDict → Option (List (String × α))
  | [] => some []
  | (k, j) :: rest => do
    let a ← g j
    let as ← parsePairs g rest
    pure ((k, a) :: as)

def parseGridList : Json → Option (List GridItem)
  | .arr xs => parseList parseGridItem xs
  | _ => none

def parseModuleConfigs : Json → Option (List (String × ModuleInstanceConfig))
  | .obj fs => parsePairs parseModuleInstanceConfig fs
  | _ => none

def parseLayoutProfile : Json → Option LayoutProfile
  | .obj fs =>
    if keysAllowed fs profileKeys then
      match dlookup fs "grid", dlookup fs "moduleConfigs" with
      | some gj, some mj => do
        let grid ← parseGridList gj
        let moduleConfigs ← parseModuleConfigs mj
        pure { grid, moduleConfigs }
      | _, _ => none
    else none
  | _ => none

def dumpLayoutProfile (p : LayoutProfile) : Json :=
  .obj [("grid", .arr (p.grid.map dumpGridItem)),
        ("moduleConfigs",
          .obj (p.moduleConfigs.map fun q => (q.1, dumpModuleInstanceConfig q.2)))]

def gridConstraintsKeys : List String :=
  ["minW", "minH", "maxW", "maxH", "defaultW", "defaultH"]

def parseGridConstraints : Json → Option GridConstraints
  | .obj fs =>
    if keysAllowed fs gridConstraintsKeys then do
      let minW ← parseOptInt (dlookup fs "minW")
      let minH ← parseOptInt (dlookup fs "minH")
      let maxW ← parseOptInt (dlookup fs "maxW")
      let maxH ← parseOptInt (dlookup fs "maxH")
      let defaultW ← parseOptInt (dlookup fs "defaultW")
      let defaultH ← parseOptInt (dlookup fs "defaultH")
      pure { minW, minH, maxW, maxH, defaultW, defaultH }
    else none
  | _ => none

def dumpGridConstraints (gc : GridConstraints) : Json :=
  .obj [("minW", optIntJson gc.minW), ("minH", optIntJson gc.minH),
        ("maxW", optIntJson gc.maxW), ("maxH", optIntJson gc.maxH),
        ("defaultW", optIntJson gc.defaultW), ("defaultH", optIntJson gc.defaultH)]

/-- The `Optional[GridConstraints] = None` field. -/
def parseOptGridConstraints : Option Json → Option (Option GridConstraints)
  | none => some none
  | some .null => some none
  | some j => (parseGridConstraints j).map some

def optGridConstraintsJson : Option GridConstraints → Json
  | none => .null
  | some gc => dumpGridConstraints gc

def manifestKeys : List String :=
  ["id", "name", "description", "version", "author", "icon",
   "defaultConfig", "configSchema", "gridConstraints"]

def parseModuleManifest : Json → Option ModuleManifest
  | .obj fs =>
    if keysAllowed fs manifestKeys then do
      let id ← parseStr (dlookup fs "id")
      let name ← parseStr (dlookup fs "name")
      let description ← parseStrDefault "" (dlookup fs "description")
      let version ← parseStr (dlookup fs "version")
      let author ← parseStrDefault "" (dlookup fs "author")
      let icon ← parseOptStr (dlookup fs "icon")
      let defaultConfig ← parseDictDefault (dlookup fs "defaultConfig")
      let configSchema ← parseOptDict (dlookup fs "configSchema")
      let gridConstraints ← parseOptGridConstraints (dlookup fs "gridConstraints")
      pure { id, name, description, version, author, icon,
             defaultConfig, configSchema, gridConstraints }
    else none
  | _ => none

def dumpModuleManifest (m : ModuleManifest) : Json :=
  .obj [("id", .str m.id), ("name", .str m.name),
        ("description", .str m.description), ("version", .str m.version),
        ("author", .str m.author), ("icon", optStrJson m.icon),
        ("defaultConfig", .obj m.defaultConfig),
        ("configSchema", optDictJson m.configSchema),
        ("gridConstraints", optGridConstraintsJson m.gridConstraints)]

/-! ### Round trips: validating a `model_dump` restores the model -/

theorem parseOptInt_optIntJson (o : Option Int) :
    parseOptInt (some (optIntJson o)) = some o := by
  cases o <;> rfl

theorem parseOptStr_optStrJson (o : Option String) :
    parseOptStr (some (optStrJson o)) = some o := by
  cases o <;> rfl

theorem parseOptDict_optDictJson (o : Option JDict) :
    parseOptDict (some (optDictJson o)) = some o := by
  cases o <;> rfl

theorem parseGridItem_dump (g : GridItem) :
    parseGridItem (dumpGridItem g) = some g := by
  obtain ⟨i, x, y, w, h, minW, minH, maxW, maxH⟩ := g
  cases minW <;> cases minH <;> cases maxW <;> cases maxH <;> rfl

theorem parseModuleInstanceConfig_dump (c : ModuleInstanceConfig) :
    parseModuleInstanceConfig (dumpModuleInstanceConfig c) = some c := rfl

theorem parseGridConstraints_dump (gc : GridConstraints) :
    parseGridConstraints (dumpGridConstraints gc) = some gc := by
  obtain ⟨a, b, c, d, e, f⟩ := gc
  cases a <;> cases b <;> cases c <;> cases d <;> cases e <;> cases f <;> rfl

theorem parseOptGridConstraints_optJson (o : Option GridConstraints) :
    parseOptGridConstraints (some (optGridConstraintsJson o)) = some o := by
  cases o with
  | none => rfl
  | some gc =>
    obtain ⟨a, b, c, d, e, f⟩ := gc
    cases a <;> cases b <;> cases c <;> cases d <;> cases e <;> cases f <;> rfl

/-- Validating the element-wise dump of a list restores the list. -/
theorem parseList_map_of_inverse {α : Type} (f : α → Json) (g : Json → Option α)
    (hinv : ∀ a, g (f a) = some a) (l : List α) :
    parseList g (l.map f) = some l := by
  induction l with
  | nil => rfl
  | cons a rest ih => simp [parseList, hinv a, ih]

/-- Validating the value-wise dump of a dict restores the dict. -/
theorem parsePairs_map_of_inverse {α : Type} (f : α → Json) (g : Json → Option α)
    (hinv : ∀ a, g (f a) = some a) (l : List (String × α)) :
    parsePairs g (l.map fun q => (q.1, f q.2)) = some l := by
  induction l with
  | nil => rfl
  | cons a rest ih => simp [parsePairs, hinv a.2, ih]

theorem parseGridList_dump (l : List GridItem) :
    parseGridList (.arr (l.map dumpGridItem)) = some l := by
  simp only [parseGridList]
  exact parseList_map_of_inverse _ _ parseGridItem_dump l

theorem parseModuleConfigs_dump (l : List (String × ModuleInstanceConfig)) :
    parseModuleConfigs
      (.obj (l.map fun q => (q.1, dumpModuleInstanceConfig q.2))) = some l := by
  simp only [parseModuleConfigs]
  exact parsePairs_map_of_inverse _ _ parseModuleInstanceConfig_dump l

theorem parseLayoutProfile_dump (p : LayoutProfile) :
    parseLayoutProfile (dumpLayoutProfile p) = some p := by
  obtain ⟨grid, mcs⟩ := p
  simp [parseLayoutProfile, dumpLayoutProfile, keysAllowed, dlookup, profileKeys,
        parseGridList_dump, parseModuleConfigs_dump]

theorem parseModuleManifest_dump (m : ModuleManifest) :
    parseModuleManifest (dumpModuleManifest m) = some m := by
  obtain ⟨id, name, description, version, author, icon, dc, cs, gc⟩ := m
  simp [parseModuleManifest, dumpModuleManifest, keysAllowed, dlookup, manifestKeys,
        parseStr, parseStrDefault, parseDictDefault,
        parseOptStr_optStrJson, parseOptDict_optDictJson,
        parseOptGridConstraints_optJson]

/-! ### database.py: ORM rows, the store, and seeding -/

/-- The `SettingsRow` (database.py): single-row table, always id 1. -/
structure SettingsRow where
  id : Nat
  theme : String
  kiosk : Bool
  cursor_timeout : Int
  font_scale : Rat
  auto_start : Bool
deriving DecidableEq, Repr

/-- The `LayoutDataRow` (database.py): single-row table; `profiles` is a
JSON object mapping profile name to profile JSON. -/
structure LayoutDataRow where
  id : Nat
  active_profile : String
  profiles : List (String × Json)

/-- The `ModuleRow` (database.py): one row per registered module. -/
structure ModuleRow where
  id : String
  name : String
  service_url : String
  manifest : Json
  status : String

/-- The `ThemeRow` (database.py): one row per theme. -/
structure ThemeRow where
  id : String
  name : String
  «variables» : List (String × String)
deriving DecidableEq, Repr

/-- The four tables of the MySQL database. -/
structure Store where
  settings : List SettingsRow
  layout_data : List LayoutDataRow
  modules : List ModuleRow
  themes : List ThemeRow

def emptyStore : Store := ⟨[], [], [], []⟩

/-- The `_DEFAULT_LAYOUT_PROFILES` (database.py). -/
def defaultLayoutProfiles : List (String × Json) :=
  [("default", .obj
    [("grid", .arr [.obj
        [("i", .str "clock_01"), ("x", .num 0), ("y", .num 0),
         ("w", .num 4), ("h", .num 3)]]),
     ("moduleConfigs", .obj
        [("clock_01", .obj
          [("moduleId", .str "clock"),
           ("config", .obj
             [("format", .str "HH:mm:ss"), ("timezone", .str "UTC"),
              ("showDate", .bool true)])])])])]

/-- The `_BUILTIN_THEMES` (database.py). -/
def builtinThemes : List ThemeRow :=
  [⟨"dark", "Dark",
    [("--color-bg", "#0d0d0d"), ("--color-surface", "#1a1a1a"),
     ("--color-accent", "#4fc3f7"), ("--color-text", "#e0e0e0"),
     ("--color-text-secondary", "#9e9e9e"), ("--color-border", "#2a2a2a"),
     ("--font-base", "\x27Inter\x27, sans-serif")]⟩,
   ⟨"light", "Light",
    [("--color-bg", "#f5f5f5"), ("--color-surface", "#ffffff"),
     ("--color-accent", "#0288d1"), ("--color-text", "#212121"),
     ("--color-text-secondary", "#616161"), ("--color-border", "#e0e0e0"),
     ("--font-base", "\x27Inter\x27, sans-serif")]⟩,
   ⟨"amoled", "AMOLED",
    [("--color-bg", "#000000"), ("--color-surface", "#0a0a0a"),
     ("--color-accent", "#00e5ff"), ("--color-text", "#e0e8f0"),
     ("--color-text-secondary", "#78909c"), ("--color-border", "#111111"),
     ("--font-base", "\x27Space Mono\x27, monospace")]⟩]

/-- The settings row inserted by `seed_defaults`. -/
def defaultSettingsRow : SettingsRow :=
  ⟨1, "dark", false, 3000, 1, false⟩

/-- The layout row inserted by `seed_defaults`. -/
def defaultLayoutRow : LayoutDataRow :=
  ⟨1, "default", defaultLayoutProfiles⟩

/-- The `seed_defaults` (database.py): three independent
check-count-then-insert blocks, in source order. -/
def seed_defaults (s : Store) : Store :=
  let s1 := if s.settings.length = 0 then
    { s with settings := s.settings ++ [defaultSettingsRow] } else s
  let s2 := if s1.layout_data.length = 0 then
    { s1 with layout_data := s1.layout_data ++ [defaultLayoutRow] } else s1
  if s2.themes.length = 0 then
    { s2 with themes := s2.themes ++ builtinThemes } else s2

/-- The store right after first bootstrap. -/
def seededStore : Store := seed_defaults emptyStore

/-! ### database.py: CRUD operations

`query(T).filter(T.id == 1).one()` succeeds iff exactly one row
matches; any other cardinality raises (outer `none`). -/

def oneLayoutRow (s : Store) : Option LayoutDataRow :=
  match s.layout_data.filter fun r => r.id = 1 with
  | [r] => some r
  | _ => none

/-- The `get_layout` (database.py): read the singleton row and validate
each profile with the pydantic constructor. -/
def get_layout (s : Store) : Option LayoutData := do
  let row ← oneLayoutRow s
  let layouts ← parsePairs parseLayoutProfile row.profiles
  pure { activeProfile := row.active_profile, layouts }

/-- The `save_layout` (database.py): overwrite the singleton row with the
dump of the whole document. -/
def save_layout (s : Store) (layout : LayoutData) : Option Store :=
  (oneLayoutRow s).map fun _ =>
    { s with layout_data := s.layout_data.map fun r =>
        if r.id = 1 then
          { r with
            active_profile := layout.activeProfile,
            profiles := layout.layouts.map fun q => (q.1, dumpLayoutProfile q.2) }
        else r }

/-- The `get_profiles` (database.py). -/
def get_profiles (s : Store) : Option (List String) :=
  (oneLayoutRow s).map fun r => dkeys r.profiles

/-- The `create_profile` (database.py): `layout.layouts[copy_from]` raises
`KeyError` when absent; the copy is `LayoutProfile(**source.model_dump())`. -/
def create_profile (s : Store) (name copy_from : String) : Option Store := do
  let layout ← get_layout s
  let source ← dlookup layout.layouts copy_from
  let copied ← parseLayoutProfile (dumpLayoutProfile source)
  save_layout s { layout with layouts := dset layout.layouts name copied }

/-- The `delete_profile` (database.py): `del layout.layouts[name]` raises
`KeyError` when absent; resets the active profile if it was deleted. -/
def delete_profile (s : Store) (name : String) : Option Store := do
  let layout ← get_layout s
  let _ ← dlookup layout.layouts name
  let layouts := ddel layout.layouts name
  let active := if layout.activeProfile = name then "default" else layout.activeProfile
  save_layout s { activeProfile := active, layouts := layouts }

/-- The `upsert_profile_content` (database.py). -/
def upsert_profile_content (s : Store) (profile_name : String)
    (profile : LayoutProfile) : Option Store := do
  let layout ← get_layout s
  save_layout s { layout with layouts := dset layout.layouts profile_name profile }

/-- The `get_module` (database.py): `.first()` on the id filter, then the
pydantic constructor on the stored manifest JSON. -/
def get_module (s : Store) (module_id : String) : Option (Option RegisteredModule) :=
  match s.modules.find? fun r => r.id == module_id with
  | none => some none
  | some row => (parseModuleManifest row.manifest).map fun m =>
      some { id := row.id, name := row.name, serviceUrl := row.service_url,
             manifest := m, status := row.status }

/-- Update the first row with the given id, in place. -/
def updateFirstModule (rows : List ModuleRow) (mid : String)
    (f : ModuleRow → ModuleRow) : List ModuleRow :=
  match rows with
  | [] => []
  | r :: rest =>
    if r.id == mid then f r :: rest else r :: updateFirstModule rest mid f

/-- The `register_module` (database.py): update every column of the
existing row, else insert a fresh row. -/
def register_module (s : Store) (m : RegisteredModule) : Store :=
  match s.modules.find? fun r => r.id == m.id with
  | some _ =>
    { s with modules := updateFirstModule s.modules m.id fun r =>
        { r with name := m.name, service_url := m.serviceUrl,
                 manifest := dumpModuleManifest m.manifest, status := m.status } }
  | none =>
    { s with modules := s.modules ++
        [⟨m.id, m.name, m.serviceUrl, dumpModuleManifest m.manifest, m.status⟩] }

/-- The `get_instance_config` (database.py): saved config of the instance
in the active profile, else the registered manifest defaultConfig,
else not found. -/
def get_instance_config (s : Store) (module_id instance_id : String) :
    Option (Option JDict) := do
  let layout ← get_layout s
  match dlookup layout.layouts layout.activeProfile with
  | none => pure none
  | some profile =>
    match dlookup profile.moduleConfigs instance_id with
    | none => do
      let mod ← get_module s module_id
      match mod with
      | some m => pure (some m.manifest.defaultConfig)
      | none => pure none
    | some entry => pure (some entry.config)

/-- The `set_instance_config` (database.py): returns `false` without
touching the store when the instance is not in the active profile. -/
def set_instance_config (s : Store) (instance_id : String) (config : JDict) :
    Option (Bool × Store) := do
  let layout ← get_layout s
  match dlookup layout.layouts layout.activeProfile with
  | none => pure (false, s)
  | some profile =>
    match dlookup profile.moduleConfigs instance_id with
    | none => pure (false, s)
    | some entry =>
      let profile2 := { profile with
        moduleConfigs := dset profile.moduleConfigs instance_id
          { entry with config := config } }
      let s2 ← save_layout s
        { layout with layouts := dset layout.layouts layout.activeProfile profile2 }
      pure (true, s2)

def oneSettingsRow (s : Store) : Option SettingsRow :=
  match s.settings.filter fun r => r.id = 1 with
  | [r] => some r
  | _ => none

/-- The `get_settings` (database.py). -/
def get_settings (s : Store) : Option GlobalSettings :=
  (oneSettingsRow s).map fun r =>
    { theme := r.theme, kiosk := r.kiosk, cursorTimeout := r.cursor_timeout,
      fontScale := r.font_scale, autoStart := r.auto_start }

/-- The `save_settings` (database.py). -/
def save_settings (s : Store) (g : GlobalSettings) : Option Store :=
  (oneSettingsRow s).map fun _ =>
    { s with settings := s.settings.map fun r =>
        if r.id = 1 then
          { r with theme := g.theme, kiosk := g.kiosk,
                   cursor_timeout := g.cursorTimeout,
                   font_scale := g.fontScale, auto_start := g.autoStart }
        else r }

/-- The `get_themes` (database.py). -/
def get_themes (s : Store) : List Theme :=
  s.themes.map fun r => ⟨r.id, r.name, r.«variables»⟩

/-- Update the first theme row with the given id, in place. -/
def updateFirstTheme (rows : List ThemeRow) (tid : String)
    (f : ThemeRow → ThemeRow) : List ThemeRow :=
  match rows with
  | [] => []
  | r :: rest =>
    if r.id == tid then f r :: rest else r :: updateFirstTheme rest tid f

/-- The `upsert_theme` (database.py). -/
def upsert_theme (s : Store) (t : Theme) : Store :=
  match s.themes.find? fun r => r.id == t.id with
  | some _ =>
    { s with themes := updateFirstTheme s.themes t.id fun r =>
        { r with name := t.name, «variables» := t.«variables» } }
  | none =>
    { s with themes := s.themes ++ [⟨t.id, t.name, t.«variables»⟩] }

/-! ### dependencies.py: the API-key guard -/

inductive AuthCheck where
  | ok
  | fail (code : Nat) (challenge : Option String)
deriving DecidableEq, Repr

/-- The `require_api_key` (dependencies.py): empty server secret is a 500
on every guarded request; missing, empty or mismatched client key is a
401 with a `WWW-Authenticate: ApiKey` challenge. -/
def require_api_key (expected : String) (api_key : Option String) : AuthCheck :=
  if expected = "" then .fail 500 none
  else if api_key.getD "" = "" ∨ api_key.getD "" ≠ expected then
    .fail 401 (some "ApiKey")
  else .ok

/-- Outcome of one request: a response body or a raised `HTTPException`
(status code, optional `WWW-Authenticate` header). -/
inductive ApiOut (α : Type) where
  | ok (body : α)
  | err (code : Nat) (challenge : Option String)

/-- The `dependencies=[Depends(require_api_key)]`: the handler runs only
when the guard passes; a guard failure is returned with the store
untouched. -/
def withAuth {α : Type} (expected : String) (api_key : Option String) (s : Store)
    (handler : Option (ApiOut α × Store)) : Option (ApiOut α × Store) :=
  match require_api_key expected api_key with
  | .ok => handler
  | .fail code ch => some (.err code ch, s)

/-! ### Route handlers (routes/layout.py, routes/modules.py,
routes/settings.py), with the auth guard split off -/

/-- The `update_layout` (routes/layout.py), after the guard. -/
def update_layout_handler (s : Store) (profileName : String)
    (grid : List GridItem) (moduleConfigs : List (String × ModuleInstanceConfig)) :
    Option (ApiOut Unit × Store) :=
  (upsert_profile_content s profileName ⟨grid, moduleConfigs⟩).map fun s2 =>
    (.ok (), s2)

/-- The `create_profile` (routes/layout.py), after the guard. -/
def create_profile_handler (s : Store) (name copyFrom : String) :
    Option (ApiOut Unit × Store) :=
  match get_profiles s with
  | none => none
  | some profiles =>
    if name ∈ profiles then some (.err 409 none, s)
    else if copyFrom ∉ profiles then some (.err 404 none, s)
    else (create_profile s name copyFrom).map fun s2 => (.ok (), s2)

/-- The `delete_profile` (routes/layout.py), after the guard. -/
def delete_profile_handler (s : Store) (name : String) :
    Option (ApiOut Unit × Store) :=
  if name = "default" then some (.err 400 none, s)
  else
    match get_profiles s with
    | none => none
    | some profiles =>
      if name ∉ profiles then some (.err 404 none, s)
      else (delete_profile s name).map fun s2 => (.ok (), s2)

/-- The `register_module` (routes/modules.py), after the guard. -/
def register_module_handler (s : Store) (body : RegisteredModule) :
    Option (ApiOut Unit × Store) :=
  some (.ok (), register_module s body)

/-- The `get_instance_config` (routes/modules.py): no guard on reads. -/
def get_instance_config_handler (s : Store) (module_id instance_id : String) :
    Option (ApiOut JDict × Store) :=
  match get_instance_config s module_id instance_id with
  | none => none
  | some none => some (.err 404 none, s)
  | some (some config) => some (.ok config, s)

set_option linter.unusedVariables false in
/-- The `update_instance_config` (routes/modules.py), after the guard.
`module_id` is only logged, never passed to the database layer. -/
def update_instance_config_handler (s : Store) (module_id instance_id : String)
    (config_data : JDict) : Option (ApiOut Unit × Store) :=
  match set_instance_config s instance_id config_data with
  | none => none
  | some (saved, s2) =>
    if saved then some (.ok (), s2) else some (.err 404 none, s2)

/-- The `update_settings` (routes/settings.py), after the guard. -/
def update_settings_handler (s : Store) (body : GlobalSettings) :
    Option (ApiOut Unit × Store) :=
  (save_settings s body).map fun s2 => (.ok (), s2)

/-- The `upsert_theme` (routes/settings.py), after the guard. -/
def upsert_theme_handler (s : Store) (body : Theme) :
    Option (ApiOut Unit × Store) :=
  some (.ok (), upsert_theme s body)

/-! ### The guarded write endpoints -/

def route_update_layout (expected : String) (api_key : Option String)
    (profileName : String) (grid : List GridItem)
    (moduleConfigs : List (String × ModuleInstanceConfig)) (s : Store) :
    Option (ApiOut Unit × Store) :=
  withAuth expected api_key s (update_layout_handler s profileName grid moduleConfigs)

def route_create_profile (expected : String) (api_key : Option String)
    (name copyFrom : String) (s : Store) : Option (ApiOut Unit × Store) :=
  withAuth expected api_key s (create_profile_handler s name copyFrom)

def route_delete_profile (expected : String) (api_key : Option String)
    (name : String) (s : Store) : Option (ApiOut Unit × Store) :=
  withAuth expected api_key s (delete_profile_handler s name)

def route_register_module (expected : String) (api_key : Option String)
    (body : RegisteredModule) (s : Store) : Option (ApiOut Unit × Store) :=
  withAuth expected api_key s (register_module_handler s body)

def route_update_instance_config (expected : String) (api_key : Option String)
    (module_id instance_id : String) (config_data : JDict) (s : Store) :
    Option (ApiOut Unit × Store) :=
  withAuth expected api_key s
    (update_instance_config_handler s module_id instance_id config_data)

def route_update_settings (expected : String) (api_key : Option String)
    (body : GlobalSettings) (s : Store) : Option (ApiOut Unit × Store) :=
  withAuth expected api_key s (update_settings_handler s body)

def route_upsert_theme (expected : String) (api_key : Option String)
    (body : Theme) (s : Store) : Option (ApiOut Unit × Store) :=
  withAuth expected api_key s (upsert_theme_handler s body)

/-! ### Sequences of layout-document mutations through the public API -/

/-- One layout-document-mutating request. -/
inductive Op where
  | createProfile (api_key : Option String) (name copyFrom : String)
  | updateLayout (api_key : Option String) (profileName : String)
      (grid : List GridItem) (moduleConfigs : List (String × ModuleInstanceConfig))
  | setInstanceConfig (api_key : Option String) (module_id instance_id : String)
      (config : JDict)
  | deleteProfile (api_key : Option String) (name : String)

def applyOp (expected : String) (s : Store) : Op → Option (ApiOut Unit × Store)
  | .createProfile k n c => route_create_profile expected k n c s
  | .updateLayout k pn g mc => route_update_layout expected k pn g mc s
  | .setInstanceConfig k mid iid cfg =>
    route_update_instance_config expected k mid iid cfg s
  | .deleteProfile k n => route_delete_profile expected k n s

/-- The store after one request: an unhandled exception commits
nothing (the session closes with a rollback). -/
def stepOp (expected : String) (s : Store) (op : Op) : Store :=
  match applyOp expected s op with
  | some (_, s2) => s2
  | none => s

def runOps (expected : String) (s : Store) : List Op → Store
  | [] => s
  | op :: rest => runOps expected (stepOp expected s op) rest

/-! ### Dict lemmas -/

theorem dlookup_isSome_iff {α : Type} (d : List (String × α)) (k : String) :
    (dlookup d k).isSome ↔ k ∈ dkeys d := by
  induction d with
  | nil => simp [dlookup, dkeys]
  | cons p rest ih =>
    obtain ⟨k0, v0⟩ := p
    by_cases h : k0 = k
    · subst h
      simp [dlookup, dkeys]
    · have h2 : ¬ k = k0 := fun hc => h hc.symm
      simp [dlookup, dkeys, h, h2, ih]

theorem dlookup_eq_none_iff {α : Type} (d : List (String × α)) (k : String) :
    dlookup d k = none ↔ k ∉ dkeys d := by
  rw [← dlookup_isSome_iff]
  cases dlookup d k <;> simp

theorem dkeys_map_replace {α : Type} (d : List (String × α)) (key : String) (v : α) :
    dkeys (d.map fun p => if p.1 = key then (key, v) else p) = dkeys d := by
  induction d with
  | nil => rfl
  | cons p rest ih =>
    by_cases h : p.1 = key <;> simp [dkeys, h, ih] <;> simpa [dkeys] using ih

theorem dkeys_dset_of_absent {α : Type} (d : List (String × α)) (key : String) (v : α)
    (h : ¬ (dlookup d key).isSome) : dkeys (dset d key v) = dkeys d ++ [key] := by
  simp [dset, h, dkeys]

theorem mem_dkeys_dset {α : Type} (d : List (String × α)) (key k : String) (v : α) :
    k ∈ dkeys (dset d key v) ↔ k = key ∨ k ∈ dkeys d := by
  by_cases h : (dlookup d key).isSome
  · have hk : key ∈ dkeys d := (dlookup_isSome_iff d key).1 h
    simp only [dset, h, if_true, dkeys_map_replace]
    constructor
    · exact Or.inr
    · rintro (rfl | hmem)
      · exact hk
      · exact hmem
  · rw [dkeys_dset_of_absent d key v h]
    simp [or_comm]

theorem dkeys_ddel {α : Type} (d : List (String × α)) (key : String) :
    dkeys (ddel d key) = (dkeys d).filter fun k => k ≠ key := by
  induction d with
  | nil => rfl
  | cons p rest ih =>
    by_cases h : p.1 = key <;> simp [ddel, dkeys, h] <;>
      simpa [ddel, dkeys] using ih

theorem mem_dkeys_ddel {α : Type} (d : List (String × α)) (key k : String) :
    k ∈ dkeys (ddel d key) ↔ k ∈ dkeys d ∧ k ≠ key := by
  rw [dkeys_ddel]
  simp [List.mem_filter]

theorem mapReplace_cons {α : Type} (k0 : String) (v0 : α) (rest : List (String × α))
    (key : String) (v : α) :
    (((k0, v0) :: rest).map fun p => if p.1 = key then (key, v) else p) =
      (if k0 = key then (key, v) else (k0, v0)) ::
        (rest.map fun p => if p.1 = key then (key, v) else p) := by
  simp

theorem dlookup_cons {α : Type} (k0 : String) (v0 : α) (rest : List (String × α))
    (k : String) :
    dlookup ((k0, v0) :: rest) k = if k0 = k then some v0 else dlookup rest k := rfl

theorem dset_present {α : Type} (d : List (String × α)) (key : String) (v : α)
    (h : (dlookup d key).isSome) :
    dset d key v = d.map fun p => if p.1 = key then (key, v) else p := by
  simp [dset, h]

theorem dset_absent {α : Type} (d : List (String × α)) (key : String) (v : α)
    (h : ¬ (dlookup d key).isSome) :
    dset d key v = d ++ [(key, v)] := by
  simp [dset, h]

theorem dlookup_append {α : Type} (d1 d2 : List (String × α)) (k : String) :
    dlookup (d1 ++ d2) k =
      match dlookup d1 k with
      | some v => some v
      | none => dlookup d2 k := by
  induction d1 with
  | nil => rfl
  | cons p rest ih =>
    obtain ⟨k0, v0⟩ := p
    rw [List.cons_append, dlookup_cons, dlookup_cons]
    by_cases hk : k0 = k
    · rw [if_pos hk, if_pos hk]
    · rw [if_neg hk, if_neg hk, ih]

theorem dlookup_mapReplace_self {α : Type} (d : List (String × α)) (key : String)
    (v : α) (h : (dlookup d key).isSome) :
    dlookup (d.map fun p => if p.1 = key then (key, v) else p) key = some v := by
  induction d with
  | nil => simp [dlookup] at h
  | cons p rest ih =>
    obtain ⟨k0, v0⟩ := p
    rw [mapReplace_cons]
    by_cases hk : k0 = key
    · rw [if_pos hk, dlookup_cons, if_pos rfl]
    · rw [if_neg hk, dlookup_cons, if_neg hk]
      rw [dlookup_cons, if_neg hk] at h
      exact ih h

theorem dlookup_mapReplace_ne {α : Type} (d : List (String × α)) (key k : String)
    (v : α) (hne : k ≠ key) :
    dlookup (d.map fun p => if p.1 = key then (key, v) else p) k = dlookup d k := by
  have hkey : ¬ key = k := fun hc => hne hc.symm
  induction d with
  | nil => rfl
  | cons p rest ih =>
    obtain ⟨k0, v0⟩ := p
    rw [mapReplace_cons]
    by_cases hk0 : k0 = key
    · rw [if_pos hk0, dlookup_cons, if_neg hkey, dlookup_cons,
          if_neg (fun hc : k0 = k => hkey (hk0 ▸ hc)), ih]
    · rw [if_neg hk0, dlookup_cons, dlookup_cons]
      by_cases hk : k0 = k
      · rw [if_pos hk, if_pos hk]
      · rw [if_neg hk, if_neg hk, ih]

theorem dlookup_dset_self {α : Type} (d : List (String × α)) (key : String) (v : α) :
    dlookup (dset d key v) key = some v := by
  by_cases h : (dlookup d key).isSome
  · rw [dset_present d key v h]
    exact dlookup_mapReplace_self d key v h
  · rw [dset_absent d key v h, dlookup_append]
    rw [Option.not_isSome_iff_eq_none] at h
    rw [h, dlookup_cons, if_pos rfl]

theorem dlookup_dset_ne {α : Type} (d : List (String × α)) (key k : String) (v : α)
    (hne : k ≠ key) : dlookup (dset d key v) k = dlookup d k := by
  have hkey : ¬ key = k := fun hc => hne hc.symm
  by_cases h : (dlookup d key).isSome
  · rw [dset_present d key v h]
    exact dlookup_mapReplace_ne d key k v hne
  · rw [dset_absent d key v h, dlookup_append]
    cases hd : dlookup d k with
    | some w => rfl
    | none => rw [dlookup_cons, if_neg hkey]; rfl

theorem ddel_cons {α : Type} (k0 : String) (v0 : α) (rest : List (String × α))
    (key : String) :
    ddel ((k0, v0) :: rest) key =
      if k0 = key then ddel rest key else (k0, v0) :: ddel rest key := by
  by_cases h : k0 = key <;> simp [ddel, List.filter_cons, h]

theorem dlookup_ddel_ne {α : Type} (d : List (String × α)) (key k : String)
    (hne : k ≠ key) : dlookup (ddel d key) k = dlookup d k := by
  induction d with
  | nil => rfl
  | cons p rest ih =>
    obtain ⟨k0, v0⟩ := p
    rw [ddel_cons]
    by_cases hk0 : k0 = key
    · rw [if_pos hk0, dlookup_cons,
          if_neg (fun hc : k0 = k => hne ((hk0 ▸ hc : key = k)).symm)]
      exact ih
    · rw [if_neg hk0, dlookup_cons, dlookup_cons]
      by_cases hk : k0 = k
      · rw [if_pos hk, if_pos hk]
      · rw [if_neg hk, if_neg hk]
        exact ih

/-! ### Plumbing: the singleton layout row under `save_layout` -/

theorem oneLayoutRow_iff (s : Store) (r : LayoutDataRow) :
    oneLayoutRow s = some r ↔
      s.layout_data.filter (fun row => row.id = 1) = [r] := by
  unfold oneLayoutRow
  cases h : s.layout_data.filter (fun row => decide (row.id = 1)) with
  | nil => simp
  | cons a t =>
    cases t with
    | nil => simp
    | cons b t2 => simp

theorem filter_eq_singleton_map {α : Type} (p : α → Bool) (g : α → α)
    (hg : ∀ x, p (g x) = p x) (rows : List α) (r : α)
    (h : rows.filter p = [r]) :
    (rows.map g).filter p = [g r] := by
  induction rows with
  | nil => simp at h
  | cons x rest ih =>
    by_cases hx : p x
    · rw [List.filter_cons_of_pos hx] at h
      have hxr : x = r := (List.cons_eq_cons.1 h).1
      have hrest : rest.filter p = [] := (List.cons_eq_cons.1 h).2
      subst hxr
      simp only [List.map_cons]
      rw [List.filter_cons_of_pos (by rw [hg]; exact hx)]
      congr 1
      rw [List.filter_eq_nil_iff] at hrest ⊢
      intro a ha
      obtain ⟨b, hb, rfl⟩ := List.mem_map.1 ha
      rw [hg]
      exact hrest b hb
    · rw [List.filter_cons_of_neg hx] at h
      simp only [List.map_cons]
      rw [List.filter_cons_of_neg (by rw [hg]; exact hx)]
      exact ih h

/-- The row as rewritten by `save_layout`. -/
def savedRow (r : LayoutDataRow) (layout : LayoutData) : LayoutDataRow :=
  { r with active_profile := layout.activeProfile,
           profiles := layout.layouts.map fun q => (q.1, dumpLayoutProfile q.2) }

theorem save_layout_eq (s : Store) (layout : LayoutData) (r : LayoutDataRow)
    (hone : oneLayoutRow s = some r) :
    save_layout s layout = some
      { s with layout_data := s.layout_data.map fun row =>
          if row.id = 1 then savedRow row layout else row } := by
  unfold save_layout savedRow
  rw [hone]
  rfl

theorem oneLayoutRow_after_save (s s2 : Store) (layout : LayoutData)
    (r : LayoutDataRow) (hone : oneLayoutRow s = some r)
    (hsave : save_layout s layout = some s2) :
    oneLayoutRow s2 = some (savedRow r layout) := by
  rw [save_layout_eq s layout r hone] at hsave
  have hld : s2.layout_data = s.layout_data.map fun row =>
      if row.id = 1 then savedRow row layout else row := by
    rw [← Option.some.inj hsave]
  have hr : s.layout_data.filter (fun row => row.id = 1) = [r] :=
    (oneLayoutRow_iff s r).1 hone
  have hid : r.id = 1 := by
    have hmem : r ∈ s.layout_data.filter fun row => decide (row.id = 1) := by
      rw [hr]
      exact List.mem_singleton.2 rfl
    simpa using List.of_mem_filter hmem
  have hmap := filter_eq_singleton_map (fun row => decide (row.id = 1))
    (fun row => if row.id = 1 then savedRow row layout else row)
    (fun x => by by_cases hx : x.id = 1 <;> simp [hx, savedRow]) s.layout_data r hr
  rw [oneLayoutRow_iff, hld, hmap]
  simp [hid]

/-- Parsing the dump of a whole profiles dict restores it. -/
theorem parsePairs_dump_layouts (l : List (String × LayoutProfile)) :
    parsePairs parseLayoutProfile (l.map fun q => (q.1, dumpLayoutProfile q.2)) =
      some l :=
  parsePairs_map_of_inverse _ _ parseLayoutProfile_dump l

theorem save_layout_isSome_row (s s2 : Store) (layout : LayoutData)
    (hsave : save_layout s layout = some s2) :
    ∃ r, oneLayoutRow s = some r := by
  by_cases h : (oneLayoutRow s).isSome
  · exact Option.isSome_iff_exists.1 h
  · rw [Option.not_isSome_iff_eq_none] at h
    simp [save_layout, h] at hsave

/-- The `get_layout` right after a `save_layout` recovers the saved document. -/
theorem get_layout_after_save (s s2 : Store) (layout : LayoutData)
    (hsave : save_layout s layout = some s2) :
    get_layout s2 = some layout := by
  obtain ⟨r, hr⟩ := save_layout_isSome_row s s2 layout hsave
  have h2 := oneLayoutRow_after_save s s2 layout r hr hsave
  simp [get_layout, h2, savedRow, parsePairs_dump_layouts]

/-- The default profile as a pydantic model. -/
def defaultProfile : LayoutProfile :=
  ⟨[⟨"clock_01", 0, 0, 4, 3, none, none, none, none⟩],
   [("clock_01", ⟨"clock",
      [("format", .str "HH:mm:ss"), ("timezone", .str "UTC"),
       ("showDate", .bool true)]⟩)]⟩

/-- The seeded layout document as a pydantic model. -/
def defaultDoc : LayoutData := ⟨"default", [("default", defaultProfile)]⟩

/-- The store after loading the seeded document and saving it back. -/
def savedOnceStore : Store :=
  (save_layout seededStore defaultDoc).getD emptyStore

/-- C6: for every stored layout document that `Load()` accepts,
`Save(Load())` is a no-op at the document level — loading the
document, saving it back unmodified, then loading again yields a
structurally identical `LayoutData` (same activeProfile, same profile
names, same grids and moduleConfigs). -/
theorem save_load_roundtrip (s s2 : Store) (d : LayoutData)
    (_hload : get_layout s = some d) (hsave : save_layout s d = some s2) :
    get_layout s2 = some d :=
  get_layout_after_save s s2 d hsave

/-- C6 witness: the seeded store loads to `defaultDoc`, saving it back
succeeds, and reloading yields `defaultDoc` again. -/
theorem save_load_roundtrip_witness :
    get_layout seededStore = some defaultDoc ∧
    save_layout seededStore defaultDoc = some savedOnceStore ∧
    get_layout savedOnceStore = some defaultDoc :=
  ⟨rfl, rfl, save_load_roundtrip seededStore savedOnceStore defaultDoc rfl rfl⟩

/-! ### Auth lemmas -/

theorem require_api_key_empty (api_key : Option String) :
    require_api_key "" api_key = .fail 500 none := by
  simp [require_api_key]

theorem require_api_key_mismatch (expected : String) (api_key : Option String)
    (h1 : expected ≠ "") (h2 : api_key ≠ some expected) :
    require_api_key expected api_key = .fail 401 (some "ApiKey") := by
  cases api_key with
  | none => simp [require_api_key, h1]
  | some k =>
    have hk : k ≠ expected := fun hc => h2 (hc ▸ rfl)
    simp [require_api_key, h1, hk]

theorem require_api_key_match (expected : String) (h1 : expected ≠ "") :
    require_api_key expected (some expected) = .ok := by
  simp [require_api_key, h1]

/-- C9: every mutating (write) endpoint is gated by the shared-secret
check: with an unset/empty server-side secret every attempted write
fails with HTTP 500; with a configured secret, a missing or mismatched
key fails with HTTP 401 and a `WWW-Authenticate` challenge; the
guarded handler runs exactly when the key matches. -/
theorem write_endpoints_guarded
    (expected : String) (api_key : Option String) (s : Store)
    (pn : String) (g : List GridItem) (mc : List (String × ModuleInstanceConfig))
    (nm cf dn : String) (bm : RegisteredModule) (mid iid : String) (cfg : JDict)
    (gs : GlobalSettings) (th : Theme) :
    (expected = "" →
      route_update_layout expected api_key pn g mc s = some (.err 500 none, s) ∧
      route_create_profile expected api_key nm cf s = some (.err 500 none, s) ∧
      route_delete_profile expected api_key dn s = some (.err 500 none, s) ∧
      route_register_module expected api_key bm s = some (.err 500 none, s) ∧
      route_update_instance_config expected api_key mid iid cfg s =
        some (.err 500 none, s) ∧
      route_update_settings expected api_key gs s = some (.err 500 none, s) ∧
      route_upsert_theme expected api_key th s = some (.err 500 none, s)) ∧
    (expected ≠ "" → api_key ≠ some expected →
      route_update_layout expected api_key pn g mc s =
        some (.err 401 (some "ApiKey"), s) ∧
      route_create_profile expected api_key nm cf s =
        some (.err 401 (some "ApiKey"), s) ∧
      route_delete_profile expected api_key dn s =
        some (.err 401 (some "ApiKey"), s) ∧
      route_register_module expected api_key bm s =
        some (.err 401 (some "ApiKey"), s) ∧
      route_update_instance_config expected api_key mid iid cfg s =
        some (.err 401 (some "ApiKey"), s) ∧
      route_update_settings expected api_key gs s =
        some (.err 401 (some "ApiKey"), s) ∧
      route_upsert_theme expected api_key th s =
        some (.err 401 (some "ApiKey"), s)) ∧
    (expected ≠ "" →
      route_update_layout expected (some expected) pn g mc s =
        update_layout_handler s pn g mc ∧
      route_create_profile expected (some expected) nm cf s =
        create_profile_handler s nm cf ∧
      route_delete_profile expected (some expected) dn s =
        delete_profile_handler s dn ∧
      route_register_module expected (some expected) bm s =
        register_module_handler s bm ∧
      route_update_instance_config expected (some expected) mid iid cfg s =
        update_instance_config_handler s mid iid cfg ∧
      route_update_settings expected (some expected) gs s =
        update_settings_handler s gs ∧
      route_upsert_theme expected (some expected) th s =
        upsert_theme_handler s th) := by
  refine ⟨fun he => ?_, fun h1 h2 => ?_, fun h1 => ?_⟩
  · subst he
    simp [route_update_layout, route_create_profile, route_delete_profile,
      route_register_module, route_update_instance_config, route_update_settings,
      route_upsert_theme, withAuth, require_api_key_empty]
  · simp [route_update_layout, route_create_profile, route_delete_profile,
      route_register_module, route_update_instance_config, route_update_settings,
      route_upsert_theme, withAuth, require_api_key_mismatch expected api_key h1 h2]
  · simp [route_update_layout, route_create_profile, route_delete_profile,
      route_register_module, route_update_instance_config, route_update_settings,
      route_upsert_theme, withAuth, require_api_key_match expected h1]

/-- C9 witness: at concrete inputs, the empty secret yields 500, a
wrong key yields the challenge 401, and the matching key runs the
handler. -/
theorem write_endpoints_guarded_witness :
    route_update_layout "" none "p" [] [] seededStore =
      some (.err 500 none, seededStore) ∧
    route_delete_profile "secret" (some "wrong") "x" seededStore =
      some (.err 401 (some "ApiKey"), seededStore) ∧
    route_delete_profile "secret" (some "secret") "x" seededStore =
      delete_profile_handler seededStore "x" := by
  have h1 := write_endpoints_guarded "" none seededStore "p" [] [] "n" "c" "d"
    ⟨"m", "M", "u", ⟨"m", "M", "", "1", "", none, [], none, none⟩, "online"⟩
    "m" "i" [] ⟨"dark", false, 3000, 1, false⟩ ⟨"t", "T", []⟩
  have h2 := write_endpoints_guarded "secret" (some "wrong") seededStore "p" [] []
    "n" "c" "x"
    ⟨"m", "M", "u", ⟨"m", "M", "", "1", "", none, [], none, none⟩, "online"⟩
    "m" "i" [] ⟨"dark", false, 3000, 1, false⟩ ⟨"t", "T", []⟩
  have h3 := write_endpoints_guarded "secret" (some "secret") seededStore "p" [] []
    "n" "c" "x"
    ⟨"m", "M", "u", ⟨"m", "M", "", "1", "", none, [], none, none⟩, "online"⟩
    "m" "i" [] ⟨"dark", false, 3000, 1, false⟩ ⟨"t", "T", []⟩
  exact ⟨(h1.1 rfl).1, (h2.2.1 (by decide) (by decide)).2.2.1,
         (h3.2.2 (by decide)).2.2.1⟩

/-- C10: the `module_id` path parameter of
`PUT /modules/\x7bmodule_id\x7d/config/\x7binstance_id\x7d` has no influence on the
outcome or on the final stored document: `set_instance_config` never
reads it. -/
theorem update_instance_config_ignores_module_id
    (expected : String) (api_key : Option String) (mid1 mid2 iid : String)
    (cfg : JDict) (s : Store) :
    route_update_instance_config expected api_key mid1 iid cfg s =
      route_update_instance_config expected api_key mid2 iid cfg s := rfl

/-! ### C8: the module registry upsert -/

theorem find?_append_modules (l1 l2 : List ModuleRow) (p : ModuleRow → Bool) :
    (l1 ++ l2).find? p = ((l1.find? p).orElse fun _ => l2.find? p) := by
  induction l1 with
  | nil => simp
  | cons r rest ih =>
    by_cases h : p r
    · rw [List.cons_append, List.find?_cons_of_pos _ h, List.find?_cons_of_pos _ h]
      rfl
    · rw [List.cons_append, List.find?_cons_of_neg _ h, List.find?_cons_of_neg _ h, ih]

theorem find?_updateFirstModule (rows : List ModuleRow) (mid : String)
    (f : ModuleRow → ModuleRow) (hf : ∀ r, (f r).id = r.id) (r0 : ModuleRow)
    (hfind : rows.find? (fun r => r.id == mid) = some r0) :
    (updateFirstModule rows mid f).find? (fun r => r.id == mid) = some (f r0) := by
  induction rows with
  | nil => simp at hfind
  | cons r rest ih =>
    by_cases h : r.id == mid
    · rw [@List.find?_cons_of_pos _ (fun q => q.id == mid) r rest h] at hfind
      have hr0 : r = r0 := Option.some.inj hfind
      subst hr0
      rw [updateFirstModule, if_pos h,
          @List.find?_cons_of_pos _ (fun q => q.id == mid) (f r) rest
            (show ((f r).id == mid) = true by rw [hf r]; exact h)]
    · rw [@List.find?_cons_of_neg _ (fun q => q.id == mid) r rest h] at hfind
      rw [updateFirstModule, if_neg h,
          @List.find?_cons_of_neg _ (fun q => q.id == mid) r
            (updateFirstModule rest mid f) h]
      exact ih hfind

/-- C8: `Register(module)` is an upsert by id: a fresh record is
created when none exists and every field of an existing record is
overwritten, so `Get(id)` after a register — in particular after
registering twice with the same id — returns the latest record in
full. -/
theorem register_module_full_replace (s : Store) (m : RegisteredModule) :
    get_module (register_module s m) m.id = some (some m) ∧
    ∀ m1 : RegisteredModule,
      get_module (register_module (register_module s m1) m) m.id =
        some (some m) := by
  suffices h : ∀ s2 : Store, get_module (register_module s2 m) m.id = some (some m) by
    exact ⟨h s, fun m1 => h (register_module s m1)⟩
  intro s2
  cases hfind : s2.modules.find? fun r => r.id == m.id with
  | none =>
    simp only [register_module, hfind]
    simp only [get_module, find?_append_modules, hfind]
    simp [parseModuleManifest_dump]
  | some r0 =>
    have hid : r0.id = m.id := by simpa using List.find?_some hfind
    simp only [register_module, hfind]
    have hupd := find?_updateFirstModule s2.modules m.id (fun r => { r with
        name := m.name, service_url := m.serviceUrl,
        manifest := dumpModuleManifest m.manifest,
        status := m.status }) (fun r => rfl) r0 hfind
    simp only [get_module, hupd]
    simp [parseModuleManifest_dump, hid]

/-! ### C5: idempotent seeding -/

theorem store_eq_of_fields (s1 s2 : Store) (h1 : s1.settings = s2.settings)
    (h2 : s1.layout_data = s2.layout_data) (h3 : s1.modules = s2.modules)
    (h4 : s1.themes = s2.themes) : s1 = s2 := by
  cases s1
  cases s2
  simp_all

/-- Each table of `seed_defaults s`, by the independent
check-then-insert blocks. -/
theorem seed_components (s : Store) :
    (seed_defaults s).settings =
      (if s.settings.length = 0 then s.settings ++ [defaultSettingsRow]
       else s.settings) ∧
    (seed_defaults s).layout_data =
      (if s.layout_data.length = 0 then s.layout_data ++ [defaultLayoutRow]
       else s.layout_data) ∧
    (seed_defaults s).modules = s.modules ∧
    (seed_defaults s).themes =
      (if s.themes.length = 0 then s.themes ++ builtinThemes else s.themes) := by
  obtain ⟨a, b, c, d⟩ := s
  by_cases ha : a.length = 0 <;> by_cases hb : b.length = 0 <;>
    by_cases hd : d.length = 0 <;> simp [seed_defaults, ha, hb, hd]

theorem seed_settings_ne_nil (s : Store) : (seed_defaults s).settings.length ≠ 0 := by
  rw [(seed_components s).1]
  split
  · simp
  · assumption

theorem seed_layout_ne_nil (s : Store) : (seed_defaults s).layout_data.length ≠ 0 := by
  rw [(seed_components s).2.1]
  split
  · simp
  · assumption

theorem seed_themes_ne_nil (s : Store) : (seed_defaults s).themes.length ≠ 0 := by
  rw [(seed_components s).2.2.2]
  split
  · simp [builtinThemes]
  · assumption

/-- C5: seeding is idempotent — `seed_defaults` after `seed_defaults`
equals a single `seed_defaults`; bootstrap from the empty store yields
exactly one settings row (theme "dark", kiosk off, cursor timeout
3000, font scale 1, auto-start off), exactly one layout row (active
profile "default", the single seeded "default" profile), no modules
and exactly the built-in themes; and each check-then-insert leaves its
table alone whenever its pre-check finds any existing record. -/
theorem seed_defaults_idempotent (s : Store) :
    seed_defaults (seed_defaults s) = seed_defaults s ∧
    seed_defaults emptyStore =
      { settings := [⟨1, "dark", false, 3000, 1, false⟩],
        layout_data := [⟨1, "default", defaultLayoutProfiles⟩],
        modules := [],
        themes := builtinThemes } ∧
    (s.settings.length ≠ 0 → (seed_defaults s).settings = s.settings) ∧
    (s.layout_data.length ≠ 0 → (seed_defaults s).layout_data = s.layout_data) ∧
    (s.themes.length ≠ 0 → (seed_defaults s).themes = s.themes) := by
  refine ⟨?_, rfl, fun h => ?_, fun h => ?_, fun h => ?_⟩
  · apply store_eq_of_fields
    · rw [(seed_components (seed_defaults s)).1,
          if_neg (seed_settings_ne_nil s)]
    · rw [(seed_components (seed_defaults s)).2.1,
          if_neg (seed_layout_ne_nil s)]
    · exact (seed_components (seed_defaults s)).2.2.1
    · rw [(seed_components (seed_defaults s)).2.2.2,
          if_neg (seed_themes_ne_nil s)]
  · rw [(seed_components s).1, if_neg h]
  · rw [(seed_components s).2.1, if_neg h]
  · rw [(seed_components s).2.2.2, if_neg h]

/-- C5 witness: the seeded store has non-empty tables and a second
seeding changes nothing in them. -/
theorem seed_defaults_idempotent_witness :
    seed_defaults (seed_defaults seededStore) = seed_defaults seededStore ∧
    seededStore.settings.length ≠ 0 ∧
    (seed_defaults seededStore).settings = seededStore.settings ∧
    seededStore.layout_data.length ≠ 0 ∧
    (seed_defaults seededStore).layout_data = seededStore.layout_data ∧
    seededStore.themes.length ≠ 0 ∧
    (seed_defaults seededStore).themes = seededStore.themes := by
  have h := seed_defaults_idempotent seededStore
  refine ⟨h.1, by decide, h.2.2.1 (by decide), by decide,
          h.2.2.2.1 (by decide), by decide, h.2.2.2.2 (by decide)⟩

/-! ### Decomposing `get_layout` -/

theorem get_layout_elim (s : Store) (d : LayoutData) (h : get_layout s = some d) :
    ∃ row, oneLayoutRow s = some row ∧ row.active_profile = d.activeProfile ∧
      parsePairs parseLayoutProfile row.profiles = some d.layouts := by
  unfold get_layout at h
  cases hone : oneLayoutRow s with
  | none => rw [hone] at h; simp at h
  | some row =>
    rw [hone] at h
    cases hp : parsePairs parseLayoutProfile row.profiles with
    | none => simp [hp] at h
    | some ls =>
      simp only [hp, Option.bind_eq_bind, Option.some_bind] at h
      obtain rfl : LayoutData.mk row.active_profile ls = d := by simpa using h
      exact ⟨row, rfl, rfl, hp⟩

theorem parsePairs_keys {α : Type} (g : Json → Option α) (l : JDict)
    (l2 : List (String × α)) (h : parsePairs g l = some l2) :
    dkeys l2 = dkeys l := by
  induction l generalizing l2 with
  | nil =>
    obtain rfl : [] = l2 := by simpa [parsePairs] using h
    rfl
  | cons p rest ih =>
    obtain ⟨k, j⟩ := p
    simp only [parsePairs] at h
    cases hg : g j with
    | none => rw [hg] at h; simp at h
    | some a =>
      rw [hg] at h
      cases hr : parsePairs g rest with
      | none => rw [hr] at h; simp at h
      | some as =>
        rw [hr] at h
        obtain rfl : (k, a) :: as = l2 := by simpa using h
        have h2 := ih as hr
        simpa [dkeys] using h2

theorem oneLayoutRow_mem (s : Store) (row : LayoutDataRow)
    (h : oneLayoutRow s = some row) : row ∈ s.layout_data ∧ row.id = 1 := by
  rw [oneLayoutRow_iff] at h
  have hmem : row ∈ s.layout_data.filter fun r => decide (r.id = 1) := by
    rw [h]
    exact List.mem_singleton.2 rfl
  constructor
  · exact List.mem_of_mem_filter hmem
  · simpa using List.of_mem_filter hmem

theorem get_layout_keys (s : Store) (d : LayoutData) (row : LayoutDataRow)
    (hone : oneLayoutRow s = some row) (hload : get_layout s = some d) :
    dkeys d.layouts = dkeys row.profiles := by
  obtain ⟨row2, hone2, _, hp⟩ := get_layout_elim s d hload
  rw [hone] at hone2
  obtain rfl : row = row2 := Option.some.inj hone2
  exact parsePairs_keys _ _ _ hp

theorem dkeys_map_dump {α β : Type} (f : α → β) (l : List (String × α)) :
    dkeys (l.map fun q => (q.1, f q.2)) = dkeys l := by
  simp [dkeys]

/-! ### C1: instance-config resolution -/

/-- C1: `ResolveInstanceConfig(moduleId, instanceId)` follows the
exact fallback chain on the active profile of the loaded document:
missing active profile fails with not-found; an `instanceId` entry in
the profile moduleConfigs returns its `config` verbatim; otherwise a
registered module with the caller-supplied `moduleId` (the stored
entry `moduleId` plays no role) supplies the manifest
`defaultConfig`; otherwise not-found. -/
theorem get_instance_config_resolution (s : Store) (module_id instance_id : String)
    (d : LayoutData) (hload : get_layout s = some d) :
    (dlookup d.layouts d.activeProfile = none →
      get_instance_config s module_id instance_id = some none) ∧
    (∀ profile entry, dlookup d.layouts d.activeProfile = some profile →
      dlookup profile.moduleConfigs instance_id = some entry →
      get_instance_config s module_id instance_id = some (some entry.config)) ∧
    (∀ profile m, dlookup d.layouts d.activeProfile = some profile →
      dlookup profile.moduleConfigs instance_id = none →
      get_module s module_id = some (some m) →
      get_instance_config s module_id instance_id =
        some (some m.manifest.defaultConfig)) ∧
    (∀ profile, dlookup d.layouts d.activeProfile = some profile →
      dlookup profile.moduleConfigs instance_id = none →
      get_module s module_id = some none →
      get_instance_config s module_id instance_id = some none) := by
  refine ⟨fun h1 => ?_, fun profile entry h1 h2 => ?_,
          fun profile m h1 h2 h3 => ?_, fun profile h1 h2 h3 => ?_⟩
  · simp [get_instance_config, hload, h1]
  · simp [get_instance_config, hload, h1, h2]
  · simp [get_instance_config, hload, h1, h2, h3]
  · simp [get_instance_config, hload, h1, h2, h3]

/-- The `clock` module as its container would register it. -/
def moduleClock : RegisteredModule :=
  ⟨"clock", "Clock", "http://module-clock:8000",
   ⟨"clock", "Clock", "", "1.0.0", "", none, [("format", .str "HH:mm")],
    none, none⟩, "online"⟩

def storeWithClock : Store := register_module seededStore moduleClock

/-- The seeded `clock_01` instance entry. -/
def clockEntry : ModuleInstanceConfig :=
  ⟨"clock", [("format", .str "HH:mm:ss"), ("timezone", .str "UTC"),
             ("showDate", .bool true)]⟩

/-- C1 witness: a saved config is returned verbatim, a missing
instance falls back to the registered manifest default, and an
unregistered module with a missing instance is not found. -/
theorem get_instance_config_resolution_witness :
    get_instance_config storeWithClock "clock" "clock_01" =
      some (some clockEntry.config) ∧
    get_instance_config storeWithClock "clock" "missing_id" =
      some (some [("format", .str "HH:mm")]) ∧
    get_instance_config seededStore "ghost" "missing_id" = some none := by
  refine ⟨?_, ?_, ?_⟩
  · exact (get_instance_config_resolution storeWithClock "clock" "clock_01"
      defaultDoc rfl).2.1 defaultProfile clockEntry rfl rfl
  · exact (get_instance_config_resolution storeWithClock "clock" "missing_id"
      defaultDoc rfl).2.2.1 defaultProfile moduleClock rfl rfl rfl
  · exact (get_instance_config_resolution seededStore "ghost" "missing_id"
      defaultDoc rfl).2.2.2 defaultProfile rfl rfl rfl

/-! ### C4: instance-config update -/

/-- C4: `SetInstanceConfig(instanceId, config)` returns a soft failure
(`false`, mapped to 404) whenever the active profile is missing or
`instanceId` is not a key of its moduleConfigs, leaving the store
untouched; on success only the `config` field of the existing entry
changes (the instance keys are unchanged — no new slot) and the whole
document is persisted. -/
theorem set_instance_config_spec (s : Store) (module_id instance_id : String)
    (cfg : JDict) (d : LayoutData) (hload : get_layout s = some d) :
    (dlookup d.layouts d.activeProfile = none →
      set_instance_config s instance_id cfg = some (false, s) ∧
      update_instance_config_handler s module_id instance_id cfg =
        some (.err 404 none, s)) ∧
    (∀ profile, dlookup d.layouts d.activeProfile = some profile →
      dlookup profile.moduleConfigs instance_id = none →
      set_instance_config s instance_id cfg = some (false, s) ∧
      update_instance_config_handler s module_id instance_id cfg =
        some (.err 404 none, s)) ∧
    (∀ profile entry, dlookup d.layouts d.activeProfile = some profile →
      dlookup profile.moduleConfigs instance_id = some entry →
      ∃ s2, set_instance_config s instance_id cfg = some (true, s2) ∧
        update_instance_config_handler s module_id instance_id cfg =
          some (.ok (), s2) ∧
        get_layout s2 = some { d with layouts := dset d.layouts d.activeProfile { profile with moduleConfigs := dset profile.moduleConfigs instance_id { entry with config := cfg } } } ∧
        dkeys (dset profile.moduleConfigs instance_id { entry with config := cfg }) = dkeys profile.moduleConfigs) := by
  refine ⟨fun h1 => ?_, fun profile h1 h2 => ?_, fun profile entry h1 h2 => ?_⟩
  · have hset : set_instance_config s instance_id cfg = some (false, s) := by
      simp [set_instance_config, hload, h1]
    exact ⟨hset, by simp [update_instance_config_handler, hset]⟩
  · have hset : set_instance_config s instance_id cfg = some (false, s) := by
      simp [set_instance_config, hload, h1, h2]
    exact ⟨hset, by simp [update_instance_config_handler, hset]⟩
  · obtain ⟨row, hone, _, _⟩ := get_layout_elim s d hload
    obtain ⟨s2, hsave⟩ : ∃ s2, save_layout s { d with layouts := dset d.layouts d.activeProfile { profile with moduleConfigs := dset profile.moduleConfigs instance_id { entry with config := cfg } } } = some s2 := by
      rw [save_layout_eq s _ row hone]
      exact ⟨_, rfl⟩
    have hset : set_instance_config s instance_id cfg = some (true, s2) := by
      simp [set_instance_config, hload, h1, h2, hsave]
    refine ⟨s2, hset, by simp [update_instance_config_handler, hset], ?_, ?_⟩
    · exact get_layout_after_save s s2 _ hsave
    · rw [dset_present _ _ _ (by rw [h2]; rfl)]
      exact dkeys_map_replace profile.moduleConfigs instance_id _

/-- The store after a successful concrete `set_instance_config`. -/
def storeAfterSet : Store :=
  ((set_instance_config seededStore "clock_01" [("format", .str "H:mm")]).getD
    (false, emptyStore)).2

/-- C4 witness: updating a missing instance soft-fails leaving the
seeded store unchanged; updating `clock_01` succeeds, persists the new
document and creates no new slot. -/
theorem set_instance_config_spec_witness :
    (set_instance_config seededStore "ghost" [] = some (false, seededStore) ∧
     update_instance_config_handler seededStore "clock" "ghost" [] =
       some (.err 404 none, seededStore)) ∧
    set_instance_config seededStore "clock_01" [("format", .str "H:mm")] =
      some (true, storeAfterSet) ∧
    get_layout storeAfterSet = some { defaultDoc with layouts := dset defaultDoc.layouts "default" { defaultProfile with moduleConfigs := dset defaultProfile.moduleConfigs "clock_01" { clockEntry with config := [("format", .str "H:mm")] } } } := by
  have h1 := (set_instance_config_spec seededStore "clock" "ghost" [] defaultDoc
    rfl).2.1 defaultProfile rfl rfl
  have h2 := (set_instance_config_spec seededStore "clock" "clock_01"
    [("format", .str "H:mm")] defaultDoc rfl).2.2 defaultProfile clockEntry rfl rfl
  obtain ⟨s2, hset, _, hget, _⟩ := h2
  obtain rfl : s2 = storeAfterSet := by
    rw [storeAfterSet, hset]
    rfl
  exact ⟨h1, hset, hget⟩

/-! ### C7: profile creation -/

/-- C7: `CreateProfile(name, copyFrom)` fails with Conflict (409) when
`name` is already a profile key, with NotFound (404) when `copyFrom`
is not a profile key; on success it stores under `name` a copy of the
`copyFrom` profile (rebuilt from its dump, so structurally equal but
independent) and changes neither `activeProfile` nor any other
profile. -/
theorem create_profile_spec (s : Store) (name copyFrom : String) :
    (∀ row, oneLayoutRow s = some row → name ∈ dkeys row.profiles →
      create_profile_handler s name copyFrom = some (.err 409 none, s)) ∧
    (∀ row, oneLayoutRow s = some row → name ∉ dkeys row.profiles →
      copyFrom ∉ dkeys row.profiles →
      create_profile_handler s name copyFrom = some (.err 404 none, s)) ∧
    (∀ d source, get_layout s = some d → name ∉ dkeys d.layouts →
      dlookup d.layouts copyFrom = some source →
      ∃ s2, create_profile_handler s name copyFrom = some (.ok (), s2) ∧
        get_layout s2 = some { d with layouts := dset d.layouts name source } ∧
        dlookup (dset d.layouts name source) name = some source ∧
        (∀ k, k ≠ name →
          dlookup (dset d.layouts name source) k = dlookup d.layouts k)) := by
  refine ⟨fun row hone hmem => ?_, fun row hone hname hcf => ?_,
          fun d source hload hname hcf => ?_⟩
  · simp [create_profile_handler, get_profiles, hone, hmem]
  · simp [create_profile_handler, get_profiles, hone, hname, hcf]
  · obtain ⟨row, hone, _, _⟩ := get_layout_elim s d hload
    have hkeys := get_layout_keys s d row hone hload
    have hname2 : name ∉ dkeys row.profiles := hkeys ▸ hname
    have hcf2 : copyFrom ∈ dkeys row.profiles := by
      rw [← hkeys]
      rw [← dlookup_isSome_iff, hcf]
      rfl
    obtain ⟨s2, hsave⟩ : ∃ s2,
        save_layout s { d with layouts := dset d.layouts name source } = some s2 := by
      rw [save_layout_eq s _ row hone]
      exact ⟨_, rfl⟩
    have hcreate : create_profile s name copyFrom = some s2 := by
      simp [create_profile, hload, hcf, parseLayoutProfile_dump, hsave]
    refine ⟨s2, ?_, get_layout_after_save s s2 _ hsave,
            dlookup_dset_self d.layouts name source,
            fun k hk => dlookup_dset_ne d.layouts name k source hk⟩
    simp [create_profile_handler, get_profiles, hone, hname2, hcf2, hcreate]

/-- The store after cloning `default` into `work`. -/
def storeWithWork : Store :=
  (create_profile seededStore "work" "default").getD emptyStore

/-- C7 witness: cloning `default` into `work` succeeds with the
expected document; re-creating `default` is a 409; cloning from a
missing profile is a 404. -/
theorem create_profile_spec_witness :
    create_profile_handler seededStore "work" "default" =
      some (.ok (), storeWithWork) ∧
    get_layout storeWithWork =
      some { defaultDoc with layouts := dset defaultDoc.layouts "work" defaultProfile } ∧
    create_profile_handler seededStore "default" "default" =
      some (.err 409 none, seededStore) ∧
    create_profile_handler seededStore "x" "nope" =
      some (.err 404 none, seededStore) := by
  have hmk := (create_profile_spec seededStore "work" "default").2.2 defaultDoc
    defaultProfile rfl (by decide) rfl
  obtain ⟨s2, hh, hg, _, _⟩ := hmk
  obtain rfl : s2 = storeWithWork := by
    have h0 : some (ApiOut.ok (), s2) =
        some (ApiOut.ok (), storeWithWork) := by
      rw [← hh]
      rfl
    simpa using h0
  refine ⟨hh, hg, ?_, ?_⟩
  · exact (create_profile_spec seededStore "default" "default").1
      defaultLayoutRow rfl (by decide)
  · exact (create_profile_spec seededStore "x" "nope").2.1
      defaultLayoutRow rfl (by decide) (by decide)

/-! ### C3: profile deletion -/

/-- C3: `DeleteProfile(name)` fails with InvalidArgument (400) when
`name = "default"`, regardless of document state; fails with NotFound
(404) when `name` is not a profile key; otherwise removes the profile
and resets `activeProfile` to `"default"` exactly when the deleted
profile was active. -/
theorem delete_profile_spec (s : Store) (name : String) :
    (name = "default" →
      delete_profile_handler s name = some (.err 400 none, s)) ∧
    (∀ row, name ≠ "default" → oneLayoutRow s = some row →
      name ∉ dkeys row.profiles →
      delete_profile_handler s name = some (.err 404 none, s)) ∧
    (∀ d, name ≠ "default" → get_layout s = some d → name ∈ dkeys d.layouts →
      ∃ s2, delete_profile_handler s name = some (.ok (), s2) ∧
        get_layout s2 = some
          ⟨if d.activeProfile = name then "default" else d.activeProfile,
           ddel d.layouts name⟩) := by
  refine ⟨fun h => ?_, fun row hne hone hmem => ?_, fun d hne hload hmem => ?_⟩
  · simp [delete_profile_handler, h]
  · simp [delete_profile_handler, get_profiles, hne, hone, hmem]
  · obtain ⟨row, hone, _, _⟩ := get_layout_elim s d hload
    have hkeys := get_layout_keys s d row hone hload
    have hmem2 : name ∈ dkeys row.profiles := hkeys ▸ hmem
    have hlk : (dlookup d.layouts name).isSome :=
      (dlookup_isSome_iff d.layouts name).2 hmem
    obtain ⟨src, hsrc⟩ := Option.isSome_iff_exists.1 hlk
    obtain ⟨s2, hsave⟩ : ∃ s2, save_layout s
        ⟨if d.activeProfile = name then "default" else d.activeProfile,
         ddel d.layouts name⟩ = some s2 := by
      rw [save_layout_eq s _ row hone]
      exact ⟨_, rfl⟩
    have hdel : delete_profile s name = some s2 := by
      simp [delete_profile, hload, hsrc, hsave]
    refine ⟨s2, ?_, get_layout_after_save s s2 _ hsave⟩
    simp [delete_profile_handler, get_profiles, hne, hone, hmem2, hdel]

/-- A two-profile store whose active profile is `work`. -/
def storeActiveWork : Store :=
  (save_layout storeWithWork
    ⟨"work", [("default", defaultProfile), ("work", defaultProfile)]⟩).getD
    emptyStore

/-- The store after deleting the active `work` profile. -/
def storeAfterDelete : Store :=
  (delete_profile storeActiveWork "work").getD emptyStore

/-- C3 witness: deleting `default` is always a 400, deleting an absent
profile is a 404, and deleting the active `work` profile removes it
and resets the active profile to `default`. -/
theorem delete_profile_spec_witness :
    delete_profile_handler seededStore "default" =
      some (.err 400 none, seededStore) ∧
    delete_profile_handler seededStore "ghost" =
      some (.err 404 none, seededStore) ∧
    delete_profile_handler storeActiveWork "work" =
      some (.ok (), storeAfterDelete) ∧
    get_layout storeAfterDelete = some ⟨"default", [("default", defaultProfile)]⟩ := by
  have h3 := (delete_profile_spec storeActiveWork "work").2.2
    ⟨"work", [("default", defaultProfile), ("work", defaultProfile)]⟩
    (by decide) rfl (by decide)
  obtain ⟨s2, hh, hg⟩ := h3
  obtain rfl : s2 = storeAfterDelete := by
    have h0 : some (ApiOut.ok (), s2) =
        some (ApiOut.ok (), storeAfterDelete) := by
      rw [← hh]
      rfl
    simpa using h0
  refine ⟨(delete_profile_spec seededStore "default").1 rfl,
          (delete_profile_spec seededStore "ghost").2.1 defaultLayoutRow
            (by decide) rfl (by decide), hh, ?_⟩
  exact hg

/-! ### C2: the layout-document invariants -/

/-- The two spec invariants on the stored layout row: the `"default"`
profile exists and the active profile names an existing profile. -/
def docInv (row : LayoutDataRow) : Prop :=
  "default" ∈ dkeys row.profiles ∧ row.active_profile ∈ dkeys row.profiles

/-- Every singleton layout row (id 1) satisfies the invariants. -/
def storeInv (s : Store) : Prop :=
  ∀ row ∈ s.layout_data, row.id = 1 → docInv row

theorem state_of_some_eq {α : Type} {a b : ApiOut α} {s1 s2 : Store}
    (h : some (a, s1) = some (b, s2)) : s1 = s2 :=
  congrArg Prod.snd (Option.some.inj h)

theorem storeInv_save (s s2 : Store) (d : LayoutData)
    (hsave : save_layout s d = some s2) (hinv : storeInv s)
    (hdef : "default" ∈ dkeys d.layouts)
    (hact : d.activeProfile ∈ dkeys d.layouts) : storeInv s2 := by
  obtain ⟨r, hr⟩ := save_layout_isSome_row s s2 d hsave
  rw [save_layout_eq s d r hr] at hsave
  have hld : s2.layout_data = s.layout_data.map fun row =>
      if row.id = 1 then savedRow row d else row := by
    rw [← Option.some.inj hsave]
  intro row2 hmem hid
  rw [hld] at hmem
  obtain ⟨row, hrow, rfl⟩ := List.mem_map.1 hmem
  by_cases h1 : row.id = 1
  · rw [if_pos h1]
    refine ⟨?_, ?_⟩ <;> simp [docInv, savedRow, dkeys_map_dump, hdef, hact]
  · rw [if_neg h1] at hid ⊢
    exact hinv row hrow hid

theorem docInv_of_load (s : Store) (d : LayoutData) (hinv : storeInv s)
    (hload : get_layout s = some d) :
    "default" ∈ dkeys d.layouts ∧ d.activeProfile ∈ dkeys d.layouts := by
  obtain ⟨row, hone, hact, hp⟩ := get_layout_elim s d hload
  have hkeys := parsePairs_keys _ _ _ hp
  obtain ⟨hmem, hid⟩ := oneLayoutRow_mem s row hone
  obtain ⟨h1, h2⟩ := hinv row hmem hid
  constructor
  · rw [hkeys]
    exact h1
  · rw [hkeys, ← hact]
    exact h2

/-- Committing a document whose `layouts` only gained or replaced a
key keeps the invariants. -/
theorem storeInv_save_dset (s s2 : Store) (d : LayoutData) (k : String)
    (p : LayoutProfile)
    (hsave : save_layout s { d with layouts := dset d.layouts k p } = some s2)
    (hinv : storeInv s) (hload : get_layout s = some d) : storeInv s2 := by
  obtain ⟨hdef, hact⟩ := docInv_of_load s d hinv hload
  apply storeInv_save _ _ _ hsave hinv
  · exact (mem_dkeys_dset d.layouts k "default" p).2 (Or.inr hdef)
  · exact (mem_dkeys_dset d.layouts k d.activeProfile p).2 (Or.inr hact)

/-- Committing the post-delete document keeps the invariants as long
as the deleted profile is not `"default"`. -/
theorem storeInv_save_ddel (s s2 : Store) (d : LayoutData) (name : String)
    (hne : name ≠ "default")
    (hsave : save_layout s
      ⟨if d.activeProfile = name then "default" else d.activeProfile,
       ddel d.layouts name⟩ = some s2)
    (hinv : storeInv s) (hload : get_layout s = some d) : storeInv s2 := by
  obtain ⟨hdef, hact⟩ := docInv_of_load s d hinv hload
  have hdef2 : "default" ∈ dkeys (ddel d.layouts name) :=
    (mem_dkeys_ddel d.layouts name "default").2 ⟨hdef, fun hc => hne hc.symm⟩
  apply storeInv_save _ _ _ hsave hinv
  · exact hdef2
  · show (if d.activeProfile = name then "default" else d.activeProfile) ∈ _
    split
    · exact hdef2
    · exact (mem_dkeys_ddel d.layouts name d.activeProfile).2 ⟨hact, by assumption⟩

theorem storeInv_update_layout_handler (s : Store) (pn : String)
    (g : List GridItem) (mc : List (String × ModuleInstanceConfig))
    (res : ApiOut Unit) (s2 : Store)
    (h : update_layout_handler s pn g mc = some (res, s2)) (hinv : storeInv s) :
    storeInv s2 := by
  unfold update_layout_handler at h
  cases hup : upsert_profile_content s pn ⟨g, mc⟩ with
  | none => rw [hup] at h; simp at h
  | some s3 =>
    rw [hup] at h
    simp at h
    obtain ⟨-, rfl⟩ := h
    unfold upsert_profile_content at hup
    cases hload : get_layout s with
    | none => rw [hload] at hup; simp at hup
    | some d =>
      simp only [hload, Option.bind_eq_bind, Option.some_bind] at hup
      exact storeInv_save_dset s s3 d pn _ hup hinv hload

theorem storeInv_create_profile_handler (s : Store) (n c : String)
    (res : ApiOut Unit) (s2 : Store)
    (h : create_profile_handler s n c = some (res, s2)) (hinv : storeInv s) :
    storeInv s2 := by
  unfold create_profile_handler at h
  cases hgp : get_profiles s with
  | none => rw [hgp] at h; simp at h
  | some profiles =>
    simp only [hgp] at h
    by_cases hmem : n ∈ profiles
    · rw [if_pos hmem] at h
      rw [← state_of_some_eq h]
      exact hinv
    · rw [if_neg hmem] at h
      by_cases hcf : c ∈ profiles
      · rw [if_neg (not_not_intro hcf)] at h
        cases hcp : create_profile s n c with
        | none => rw [hcp] at h; simp at h
        | some s3 =>
          rw [hcp] at h
          simp at h
          obtain ⟨-, rfl⟩ := h
          unfold create_profile at hcp
          cases hload : get_layout s with
          | none => rw [hload] at hcp; simp at hcp
          | some d =>
            simp only [hload, Option.bind_eq_bind, Option.some_bind] at hcp
            cases hsrc : dlookup d.layouts c with
            | none => rw [hsrc] at hcp; simp at hcp
            | some source =>
              rw [hsrc] at hcp
              simp only [Option.some_bind, parseLayoutProfile_dump] at hcp
              exact storeInv_save_dset s s3 d n source hcp hinv hload
      · rw [if_pos hcf] at h
        rw [← state_of_some_eq h]
        exact hinv

theorem storeInv_update_instance_config_handler (s : Store)
    (mid iid : String) (cfg : JDict) (res : ApiOut Unit) (s2 : Store)
    (h : update_instance_config_handler s mid iid cfg = some (res, s2))
    (hinv : storeInv s) : storeInv s2 := by
  unfold update_instance_config_handler at h
  cases hsc : set_instance_config s iid cfg with
  | none => rw [hsc] at h; simp at h
  | some pr =>
    obtain ⟨saved, s3⟩ := pr
    simp only [hsc] at h
    have hs3 : s3 = s2 := by
      by_cases hb : saved = true
      · rw [if_pos hb] at h
        exact state_of_some_eq h
      · rw [if_neg hb] at h
        exact state_of_some_eq h
    subst hs3
    unfold set_instance_config at hsc
    cases hload : get_layout s with
    | none => rw [hload] at hsc; simp at hsc
    | some d =>
      simp only [hload, Option.bind_eq_bind, Option.some_bind] at hsc
      cases hap : dlookup d.layouts d.activeProfile with
      | none =>
        simp only [hap] at hsc
        obtain ⟨-, rfl⟩ : false = saved ∧ s = s3 := by simpa using hsc
        exact hinv
      | some profile =>
        simp only [hap] at hsc
        cases hent : dlookup profile.moduleConfigs iid with
        | none =>
          simp only [hent] at hsc
          obtain ⟨-, rfl⟩ : false = saved ∧ s = s3 := by simpa using hsc
          exact hinv
        | some entry =>
          simp only [hent] at hsc
          cases hsv : save_layout s { d with layouts := dset d.layouts d.activeProfile { profile with moduleConfigs := dset profile.moduleConfigs iid { entry with config := cfg } } } with
          | none => rw [hsv] at hsc; simp at hsc
          | some s4 =>
            simp only [hsv] at hsc
            obtain ⟨-, rfl⟩ : true = saved ∧ s4 = s3 := by simpa using hsc
            exact storeInv_save_dset s s4 d d.activeProfile _ hsv hinv hload

theorem storeInv_delete_profile_handler (s : Store) (n : String)
    (res : ApiOut Unit) (s2 : Store)
    (h : delete_profile_handler s n = some (res, s2)) (hinv : storeInv s) :
    storeInv s2 := by
  unfold delete_profile_handler at h
  by_cases hdef : n = "default"
  · rw [if_pos hdef] at h
    rw [← state_of_some_eq h]
    exact hinv
  · rw [if_neg hdef] at h
    cases hgp : get_profiles s with
    | none => rw [hgp] at h; simp at h
    | some profiles =>
      simp only [hgp] at h
      by_cases hmem : n ∈ profiles
      · rw [if_neg (not_not_intro hmem)] at h
        cases hdp : delete_profile s n with
        | none => rw [hdp] at h; simp at h
        | some s3 =>
          rw [hdp] at h
          simp at h
          obtain ⟨-, rfl⟩ := h
          unfold delete_profile at hdp
          cases hload : get_layout s with
          | none => rw [hload] at hdp; simp at hdp
          | some d =>
            simp only [hload, Option.bind_eq_bind, Option.some_bind] at hdp
            cases hsrc : dlookup d.layouts n with
            | none => rw [hsrc] at hdp; simp at hdp
            | some source =>
              rw [hsrc] at hdp
              simp only [Option.some_bind] at hdp
              exact storeInv_save_ddel s s3 d n hdef hdp hinv hload
      · rw [if_pos hmem] at h
        rw [← state_of_some_eq h]
        exact hinv

theorem storeInv_stepOp (expected : String) (s : Store) (op : Op)
    (hinv : storeInv s) : storeInv (stepOp expected s op) := by
  unfold stepOp
  cases happ : applyOp expected s op with
  | none => exact hinv
  | some pr =>
    obtain ⟨res, s2⟩ := pr
    show storeInv s2
    cases op with
    | createProfile k n c =>
      simp only [applyOp, route_create_profile, withAuth] at happ
      cases hauth : require_api_key expected k with
      | ok =>
        simp only [hauth] at happ
        exact storeInv_create_profile_handler s n c res s2 happ hinv
      | fail code ch =>
        simp only [hauth] at happ
        rw [← state_of_some_eq happ]
        exact hinv
    | updateLayout k pn g mc =>
      simp only [applyOp, route_update_layout, withAuth] at happ
      cases hauth : require_api_key expected k with
      | ok =>
        simp only [hauth] at happ
        exact storeInv_update_layout_handler s pn g mc res s2 happ hinv
      | fail code ch =>
        simp only [hauth] at happ
        rw [← state_of_some_eq happ]
        exact hinv
    | setInstanceConfig k mid iid cfg =>
      simp only [applyOp, route_update_instance_config, withAuth] at happ
      cases hauth : require_api_key expected k with
      | ok =>
        simp only [hauth] at happ
        exact storeInv_update_instance_config_handler s mid iid cfg res s2 happ hinv
      | fail code ch =>
        simp only [hauth] at happ
        rw [← state_of_some_eq happ]
        exact hinv
    | deleteProfile k n =>
      simp only [applyOp, route_delete_profile, withAuth] at happ
      cases hauth : require_api_key expected k with
      | ok =>
        simp only [hauth] at happ
        exact storeInv_delete_profile_handler s n res s2 happ hinv
      | fail code ch =>
        simp only [hauth] at happ
        rw [← state_of_some_eq happ]
        exact hinv

theorem storeInv_runOps (expected : String) (s : Store) (ops : List Op)
    (hinv : storeInv s) : storeInv (runOps expected s ops) := by
  induction ops generalizing s with
  | nil => exact hinv
  | cons op rest ih => exact ih _ (storeInv_stepOp expected s op hinv)

theorem seededStore_inv : storeInv seededStore := by
  intro row hmem hid
  have hld : seededStore.layout_data = [defaultLayoutRow] := rfl
  rw [hld] at hmem
  have hrow : row = defaultLayoutRow := by simpa using hmem
  subst hrow
  exact ⟨by decide, by decide⟩

/-- C2: starting from the seeded layout document, every sequence of
public-API layout mutations (profile creation, profile-content
upsert, instance-config update, profile deletion) keeps the
invariants that `"default"` is a profile key and that `activeProfile`
names an existing profile. -/
theorem layout_invariants_preserved (expected : String) (ops : List Op) :
    storeInv (runOps expected seededStore ops) :=
  storeInv_runOps expected seededStore ops seededStore_inv

end OZMirror
